import Mathlib

/-!
Verification of the taserver login server core (`login_server/loginserver.py` and
`login_server/player/state/unauthenticated_state.py`) against its specification.

The Python code is shallowly embedded: registries (Python `dict`s keyed by
integer ids or login names) become association lists with unique keys, object
mutation becomes functional record update mirrored into the registry slot of the
mutated object, and raised exceptions become `Except` results.  Machine-level
concerns do not arise: all ids are small Python `int`s, modelled as `Nat`.
-/

namespace Taserver

/-! ## Association-list registries

Python `dict`s (`LoginServer.players`, `LoginServer.game_servers`, the account
store) are modelled as association lists.  `lookupKey` finds the binding of a
key, `eraseKey` removes it (`dict.pop` / `del`), and `updateValue` rewrites the
value stored under a key in place (attribute mutation of an object that sits in
the registry).  A fresh binding is appended at the end, matching `dict`
insertion order. -/

def lookupKey {κ α : Type} [DecidableEq κ] : List (κ × α) → κ → Option α
  | [], _ => none
  | kv :: rest, k => if kv.1 = k then some kv.2 else lookupKey rest k

def memKey {κ α : Type} [DecidableEq κ] (l : List (κ × α)) (k : κ) : Bool :=
  (lookupKey l k).isSome

def eraseKey {κ α : Type} [DecidableEq κ] : List (κ × α) → κ → List (κ × α)
  | [], _ => []
  | kv :: rest, k => if kv.1 = k then eraseKey rest k else kv :: eraseKey rest k

def updateValue {κ α : Type} [DecidableEq κ] : List (κ × α) → κ → (α → α) → List (κ × α)
  | [], _, _ => []
  | kv :: rest, k, f =>
    if kv.1 = k then (kv.1, f kv.2) :: updateValue rest k f
    else kv :: updateValue rest k f

/-! ## Data model -/

/-- A connected player (`login_server/player/player.py` object as observed by the
core handlers): the attributes read or written by the embedded code. -/
structure Player where
  unique_id : Nat
  login_name : String
  password_hash : Option (List Nat)
  display_name : Option String
  registered : Bool
  team : Option Nat
  /-- The `server_id` of the game server the player is attached to
  (`player.game_server` is an object reference in Python; object identity is
  represented by the server's registry key, which is unique per connected
  server). -/
  game_server : Option Nat
  deriving DecidableEq, Repr

abbrev Registry := List (Nat × Player)

/-- A persisted account record: `login_name → {password_hash, unique_id}`. -/
structure Account where
  password_hash : List Nat
  unique_id : Nat
  deriving DecidableEq, Repr

/-- Exceptions that the embedded handlers can raise. -/
inductive LoginError where
  | alreadyLoggedIn
  | assertionError
  | protocolViolation
  deriving DecidableEq, Repr

/-! ## `LoginServer.change_player_unique_id` (loginserver.py:141-150) -/

/-- `LoginServer.change_player_unique_id(old_id, new_id)`.  Raises
`AlreadyLoggedInError` when `new_id` is already a key of `self.players`; then
asserts `old_id in self.players` (the second assert, `new_id not in
self.players`, is implied by the first check).  On success it pops the player
from `old_id`, sets its `unique_id` attribute and re-inserts it under `new_id`
(a fresh key, hence appended). -/
def change_player_unique_id (players : Registry) (old_id new_id : Nat) :
    Except LoginError Registry :=
  if memKey players new_id then .error .alreadyLoggedIn
  else
    match lookupKey players old_id with
    | none => .error .assertionError
    | some player =>
      .ok (eraseKey players old_id ++ [(new_id, { player with unique_id := new_id })])

/-- The caller's view of `change_player_unique_id`: a raise leaves the registry
exactly as it was, because the `AlreadyLoggedInError` raise is the first
statement of the method, before any mutation. -/
def change_player_unique_id_run (players : Registry) (old_id new_id : Nat) :
    Registry × Option LoginError :=
  match change_player_unique_id players old_id new_id with
  | .ok players2 => (players2, none)
  | .error e => (players, some e)

/-! ## `LoginServer.validate_username` (loginserver.py:152-167) -/

/-- Modelled from the spec: `common/utils.py`'s `is_valid_ascii_for_name` is not
under `src/`; the spec (§4.3 step 2a) describes it as membership of every byte
in "a restricted ASCII charset (explicit allow-list, not full ASCII)".  The
allow-list itself is abstracted as the parameter `allowed`. -/
def is_valid_ascii_for_name (allowed : List Nat) (ascii_bytes : List Nat) : Bool :=
  ascii_bytes.all (fun b => decide (b ∈ allowed))

/-- `LoginServer.validate_username`.  `minLen`/`maxLen` are the class attributes
`Player.min_name_length`/`Player.max_name_length` (declared outside `src/`),
kept as parameters.  `username.encode('ascii')` succeeds exactly when every
character's code point is below 128, in which case the bytes are the code
points. -/
def validate_username (minLen maxLen : Nat) (allowed : List Nat) (username : String) :
    Option String :=
  if username.length < minLen then
    some ("User name is too short, min length is " ++ toString minLen ++ " characters.")
  else if maxLen < username.length then
    some ("User name is too long, max length is " ++ toString maxLen ++ " characters.")
  else if !(username.toList.all (fun c => decide (c.toNat < 128))) then
    some "User name contains invalid (i.e. non-ascii) characters"
  else if !(is_valid_ascii_for_name allowed (username.toList.map Char.toNat)) then
    some "User name contains invalid characters"
  else
    none

/-! ## `choose_display_name` (unauthenticated_state.py:28-40) -/

/-- Python slicing `s[:k]` for an `int` index `k`: a negative bound counts from
the end of the string. -/
def pySliceTo (s : String) (k : Int) : String :=
  let n : Int := if k < 0 then (s.length : Int) + k else k
  String.mk (s.toList.take n.toNat)

/-- `'%02d' % n`: decimal representation left-padded with `0` to two digits. -/
def pad2 (n : Nat) : String :=
  if n < 10 then "0" ++ toString n else toString n

/-- The `while display_name in names_in_use` loop of `choose_display_name`.
The Python loop body replaces the candidate by `'unv%02d-%s' % (index, truncated)`,
increments `index` and then runs `assert index < 100`; the assertion failure is
modelled as `none`.  For structural recursion the bound is carried as
`remaining = 99 - index`: a body iteration entered with `remaining = 0` (i.e.
`index = 99`) builds the new candidate, increments `index` to `100` and fails
the assertion, so candidates for indices `2..98` are the only ones that can be
returned besides the initial one. -/
def choose_display_name_loop (truncated : String) (names_in_use : List String) :
    String → Nat → Nat → Option String
  | display_name, index, remaining =>
    if display_name ∈ names_in_use then
      match remaining with
      | 0 => none
      | r + 1 =>
        choose_display_name_loop truncated names_in_use
          ("unv" ++ pad2 index ++ "-" ++ truncated) (index + 1) r
    else some display_name

/-- The initial unregistered candidate `'unvrf-' + login_name[:max_name_length - len('unvrf-')]`
is built from this truncation of the login name (`len('unvrf-') = 6`). -/
def truncBase (login_name : String) (max_name_length : Nat) : String :=
  pySliceTo login_name ((max_name_length : Int) - 6)

/-- `choose_display_name(login_name, registered, names_in_use, max_name_length)`.
Registered players get the login name truncated to `max_name_length`;
unregistered players get an `unvrf-`/`unv%02d-` prefixed name that is not yet
in use.  `none` models the `AssertionError` raised once `index` reaches 100. -/
def choose_display_name (login_name : String) (registered : Bool)
    (names_in_use : List String) (max_name_length : Nat) : Option String :=
  if registered then some (String.mk (login_name.toList.take max_name_length))
  else
    choose_display_name_loop (truncBase login_name max_name_length) names_in_use
      ("unvrf-" ++ truncBase login_name max_name_length) 2 97

example : choose_display_name "Alice" true [] 15 = some "Alice" := by decide
example : choose_display_name "Alice" false [] 15 = some "unvrf-Alice" := by decide
example : choose_display_name "Alice" false ["unvrf-Alice"] 15 = some "unv02-Alice" := by
  decide
example : choose_display_name "abcdefghij" false [] 15 = some "unvrf-abcdefghi" := by decide

/-! ## `UnauthenticatedState.handle_login_request` (unauthenticated_state.py:53-110)

A login request without an `m0056` field is a name probe answered with a bare
`a003a`; one with an `m0056` field is an actual login attempt.  The outcome of
the handler is the reply that was sent together with the state transition:
`rejected` is the `a003d` failure reply (`m0442` success flag `False`, the
player stays in `UnauthenticatedState`), `success` is the `a003d` success reply
followed by `set_state(AuthenticatedState)`.

`self.player` is the very object stored in `self.player.login_server.players`
under the player's current `unique_id`, so every attribute mutation of
`self.player` is mirrored into the registry slot at that key.  The handler
threads the current player record (`selfP`) alongside the registry.
`self.player.load()` only pulls in external per-account data and is omitted. -/

inductive LoginOutcome where
  | probeAck
  | rejected
  | success
  deriving DecidableEq, Repr

/-- The actual-login branch of `UnauthenticatedState.handle_login_request`
(`unauthenticated_state.py:58-110`), with `password_hash = none` for the probe
branch (line 55-56).  Returns the updated player registry, the updated player
object and the outcome, or the exception the handler raised. -/
def handle_login_request (minLen maxLen : Nat) (allowed : List Nat)
    (accounts : List (String × Account)) (players : Registry) (self0 : Player)
    (login_name : String) (password_hash : Option (List Nat)) :
    Except LoginError (Registry × Player × LoginOutcome) :=
  match password_hash with
  | none => .ok (players, self0, .probeAck)
  | some pwh =>
    let self1 := { self0 with login_name := login_name, password_hash := some pwh }
    let players1 := updateValue players self1.unique_id (fun _ => self1)
    match validate_username minLen maxLen allowed login_name with
    | some _ => .ok (players1, self1, .rejected)
    | none =>
      match
        (match lookupKey accounts login_name with
         | some acct =>
           if acct.password_hash = pwh then
             match change_player_unique_id players1 self1.unique_id acct.unique_id with
             | .error e => .error e
             | .ok players2 =>
               let self2 := { self1 with unique_id := acct.unique_id, registered := true }
               .ok (updateValue players2 self2.unique_id (fun _ => self2), self2)
           else .ok (players1, self1)
         | none => .ok (players1, self1) :
          Except LoginError (Registry × Player)) with
      | .error e => .error e
      | .ok (players3, self3) =>
        let names_in_use := (players3.map Prod.snd).filterMap (fun p => p.display_name)
        match choose_display_name login_name self3.registered names_in_use maxLen with
        | none => .error .assertionError
        | some dn =>
          let self4 := { self3 with display_name := some dn }
          .ok (updateValue players3 self4.unique_id (fun _ => self4), self4, .success)

/-! ## The dispatch loop (`LoginServer.run`, loginserver.py:87-101)

The loop pops one message at a time from `self.server_queue`, resolves the
handler from `self.message_handlers` by the message's concrete type and invokes
it inside `try`/`except`: when the handler raises and the message has a `peer`
attribute, the exception is logged and `message.peer.disconnect(e)` is issued;
when the message has no `peer` attribute, the exception is re-raised and
terminates the loop.  The embedding is parametric in the event type (`peerOf`
models `hasattr(message, 'peer')`/`message.peer`, with peers named by their
connection id), the handler table and the transport-supplied `disconnect`; the
disconnect calls issued while draining the queue are collected in a list. -/

def dispatchOne {Ev St Err : Type} (peerOf : Ev → Option Nat)
    (handler : Ev → St → Except Err St) (disconnect : Nat → St → St)
    (ev : Ev) (s : St) : Except Err (St × List Nat) :=
  match handler ev s with
  | .ok s2 => .ok (s2, [])
  | .error e =>
    match peerOf ev with
    | some p => .ok (disconnect p s, [p])
    | none => .error e

def runLoop {Ev St Err : Type} (peerOf : Ev → Option Nat)
    (handler : Ev → St → Except Err St) (disconnect : Nat → St → St) :
    List Ev → St → Except Err (St × List Nat)
  | [], s => .ok (s, [])
  | ev :: rest, s =>
    match dispatchOne peerOf handler disconnect ev s with
    | .error e => .error e
    | .ok (s2, ds) =>
      match runLoop peerOf handler disconnect rest s2 with
      | .error e => .error e
      | .ok (s3, ds2) => .ok (s3, ds ++ ds2)

/-- The login-request event as it reaches the dispatch loop: a
`LoginProtocolMessage` whose handler chain
(`handle_client_message → Player.handle_request → UnauthenticatedState.handle_login_request`)
is a plain dispatch on the request code (spec §4.3: each state maps accepted
request codes to handler methods), so an exception from the state handler
propagates to the loop unchanged. -/
def login_event_handler (minLen maxLen : Nat) (allowed : List Nat)
    (accounts : List (String × Account)) (login_name : String) (pwh : List Nat) :
    Registry × Player → Except LoginError (Registry × Player) :=
  fun st =>
    (handle_login_request minLen maxLen allowed accounts st.1 st.2 login_name
        (some pwh)).map (fun r => (r.1, r.2.1))

/-! ## Identity allocation and the game-server lifecycle
(loginserver.py:198-247) -/

/-- Modelled from the spec: `common/utils.py`'s `first_unused_number_above` is
not under `src/`; the spec (§4.2 Identity Allocator) defines it as "given the
set of currently-in-use integer keys and a floor value, returns the smallest
integer ≥ floor not present in that set".  The search scans upward from the
floor; `numbers.length + 1` candidates always contain an unused one. -/
def firstUnusedFrom (numbers : List Nat) : Nat → Nat → Nat
  | 0, n => n
  | fuel + 1, n => if n ∈ numbers then firstUnusedFrom numbers fuel (n + 1) else n

/-- Modelled from the spec: the Identity Allocator (§4.2), see `firstUnusedFrom`. -/
def first_unused_number_above (numbers : List Nat) (floor_val : Nat) : Nat :=
  firstUnusedFrom numbers (numbers.length + 1) floor_val

/-- A connected game server: the identity fields assigned by
`handle_client_connected_message` (the remaining launcher-event fields are not
referenced by the embedded handlers). -/
structure GameServer where
  server_id : Nat
  match_id : Nat
  deriving DecidableEq, Repr

abbrev GSRegistry := List (Nat × GameServer)

/-- The `GameServer` branch of `LoginServer.handle_client_connected_message`
(loginserver.py:209-220): allocate `server_id` above floor 1 over the current
game-server keys, set `match_id = server_id + 10000000` and insert the server
into `self.game_servers` under `server_id`.  Returns the new registry and the
connected server. -/
def handle_game_server_connected (game_servers : GSRegistry) : GSRegistry × GameServer :=
  let server_id := first_unused_number_above (game_servers.map Prod.fst) 1
  let gs : GameServer := { server_id := server_id, match_id := server_id + 10000000 }
  (game_servers ++ [(server_id, gs)], gs)

/-- The `GameServer` branch of `LoginServer.handle_client_disconnected_message`
(loginserver.py:234-241): `del self.game_servers[game_server.server_id]`. -/
def handle_game_server_disconnected (game_servers : GSRegistry) (gs : GameServer) :
    GSRegistry :=
  eraseKey game_servers gs.server_id

/-! ## `LoginServer.handle_team_info_message` (loginserver.py:308-317) -/

/-- One `(player_id, team_id)` pair of a team-info message: the player's `team`
attribute is set only when `player_id in self.players` and that player's
`game_server` is the emitting server (object identity, i.e. same `server_id`);
otherwise the pair is logged and dropped. -/
def team_info_step (srv : Nat) (players : Registry) (pt : Nat × Nat) : Registry :=
  match lookupKey players pt.1 with
  | some player =>
    if player.game_server = some srv then
      updateValue players pt.1 (fun p => { p with team := some pt.2 })
    else players
  | none => players

/-- `LoginServer.handle_team_info_message`: fold `team_info_step` over the
`player_to_team_id` items of the message (keys already converted to `int`).
The handler raises nothing and issues no disconnect. -/
def handle_team_info (players : Registry) (srv : Nat) (pairs : List (Nat × Nat)) :
    Registry :=
  pairs.foldl (team_info_step srv) players

/-! ## `LoginServer.handle_authcode_request_message` (loginserver.py:178-192) -/

/-- `string.ascii_letters` -/
def ascii_letters : String := "abcdefghijklmnopqrstuvwxyzABCDEFGHIJKLMNOPQRSTUVWXYZ"

/-- `string.digits` -/
def ascii_digits : String := "0123456789"

/-- `''.join(c for c in (string.ascii_letters + string.digits) if c not in 'O0Il')` -/
def availablechars : List Char :=
  ((ascii_letters ++ ascii_digits).toList).filter (fun c => !("O0Il".toList.contains c))

/-- `random.choice(seq)` driven by one draw `r` of the random source. -/
def randomChoice (seq : List Char) (r : Nat) : Char :=
  seq.getD (r % seq.length) 'a'

/-- The calls the handler makes on the account store (`self.accounts`). -/
inductive AccountOp where
  | add (login_name authcode : String)
  | save
  deriving DecidableEq, Repr

structure AuthCodeResult where
  /-- the string passed to `authcode_requester.send` -/
  reply : String
  /-- the account-store calls, in order -/
  ops : List AccountOp
  deriving DecidableEq, Repr

/-- `LoginServer.handle_authcode_request_message`: validate the requested login
name; on failure send `'Error: ' + reason` and touch nothing; on success draw 8
characters from `availablechars` (the i-th via `rand i`), persist the pair with
`add_account` + `save`, and send the code. -/
def handle_authcode_request (minLen maxLen : Nat) (allowed : List Nat)
    (rand : Nat → Nat) (login_name : String) : AuthCodeResult :=
  match validate_username minLen maxLen allowed login_name with
  | some validation_failure => { reply := "Error: " ++ validation_failure, ops := [] }
  | none =>
    let authcode := String.mk ((List.range 8).map (fun i => randomChoice availablechars (rand i)))
    { reply := authcode, ops := [.add login_name authcode, .save] }

/-! ## Registry lemmas -/

theorem memKey_false_iff {κ α : Type} [DecidableEq κ] (l : List (κ × α)) (k : κ) :
    memKey l k = false ↔ lookupKey l k = none := by
  unfold memKey
  cases lookupKey l k <;> simp

theorem lookupKey_append {κ α : Type} [DecidableEq κ] (l1 l2 : List (κ × α)) (k : κ)
    (h : lookupKey l1 k = none) : lookupKey (l1 ++ l2) k = lookupKey l2 k := by
  induction l1 with
  | nil => rfl
  | cons kv rest ih =>
    rw [List.cons_append]
    simp only [lookupKey] at h ⊢
    by_cases hk : kv.1 = k
    · simp [hk] at h
    · simp only [if_neg hk] at h ⊢
      exact ih h

theorem lookupKey_eraseKey_self {κ α : Type} [DecidableEq κ] (l : List (κ × α)) (k : κ) :
    lookupKey (eraseKey l k) k = none := by
  induction l with
  | nil => rfl
  | cons kv rest ih =>
    simp only [eraseKey]
    by_cases hk : kv.1 = k
    · simp [hk, ih]
    · simp [lookupKey, hk, ih]

theorem lookupKey_eraseKey_ne {κ α : Type} [DecidableEq κ] (l : List (κ × α)) (k k2 : κ)
    (h : k2 ≠ k) : lookupKey (eraseKey l k) k2 = lookupKey l k2 := by
  induction l with
  | nil => rfl
  | cons kv rest ih =>
    simp only [eraseKey, lookupKey]
    by_cases hk : kv.1 = k
    · have hne : kv.1 ≠ k2 := by rw [hk]; exact fun hh => h hh.symm
      have hne2 : k ≠ k2 := fun hh => h hh.symm
      simp [hk, hne, hne2, ih, lookupKey]
    · simp [lookupKey, hk, ih]

theorem lookupKey_eraseKey_none {κ α : Type} [DecidableEq κ] (l : List (κ × α)) (k k2 : κ)
    (h : lookupKey l k2 = none) : lookupKey (eraseKey l k) k2 = none := by
  by_cases hk : k2 = k
  · subst hk
    exact lookupKey_eraseKey_self l k2
  · rw [lookupKey_eraseKey_ne l k k2 hk]
    exact h

theorem lookupKey_updateValue {κ α : Type} [DecidableEq κ] (l : List (κ × α)) (k : κ)
    (f : α → α) (k2 : κ) :
    lookupKey (updateValue l k f) k2 =
      if k = k2 then (lookupKey l k2).map f else lookupKey l k2 := by
  induction l with
  | nil => simp [updateValue, lookupKey]
  | cons kv rest ih =>
    simp only [updateValue]
    by_cases h1 : kv.1 = k
    · rw [if_pos h1]
      by_cases h2 : k = k2
      · subst h2
        simp [lookupKey, h1, ih]
      · have hne : kv.1 ≠ k2 := by rw [h1]; exact h2
        simp [lookupKey, hne, h2, ih]
    · rw [if_neg h1]
      by_cases h2 : kv.1 = k2
      · have hne : k ≠ k2 := fun hh => h1 (h2.trans hh.symm)
        simp [lookupKey, h2, hne]
      · simp [lookupKey, h2, ih]

theorem memKey_updateValue {κ α : Type} [DecidableEq κ] (l : List (κ × α)) (k : κ)
    (f : α → α) (k2 : κ) : memKey (updateValue l k f) k2 = memKey l k2 := by
  unfold memKey
  rw [lookupKey_updateValue]
  by_cases h : k = k2
  · cases hl : lookupKey l k2 <;> simp [h, hl]
  · simp [h]

/-! ## C1: crash isolation in the dispatch loop -/

/-- C1: for every event processed by the dispatch loop, if the event carries an
identifiable originating peer (`peerOf ev = some p`) and its handler raises,
the dispatcher catches the exception and issues exactly one disconnect call on
that peer, and the loop continues processing the remaining queued events (the
run of the rest of the queue from the post-disconnect state, with `p` prepended
to the disconnect log); if the event carries no identifiable peer, the
exception propagates and terminates the loop. -/
theorem dispatcher_isolates_faulting_peer {Ev St Err : Type} (peerOf : Ev → Option Nat)
    (handler : Ev → St → Except Err St) (disconnect : Nat → St → St)
    (ev : Ev) (rest : List Ev) (s : St) (e : Err)
    (hraise : handler ev s = .error e) :
    (∀ p, peerOf ev = some p →
      dispatchOne peerOf handler disconnect ev s = .ok (disconnect p s, [p]) ∧
      runLoop peerOf handler disconnect (ev :: rest) s =
        (runLoop peerOf handler disconnect rest (disconnect p s)).map
          (fun r => (r.1, p :: r.2))) ∧
    (peerOf ev = none →
      runLoop peerOf handler disconnect (ev :: rest) s = .error e) := by
  constructor
  · intro p hp
    have hd : dispatchOne peerOf handler disconnect ev s = .ok (disconnect p s, [p]) := by
      simp [dispatchOne, hraise, hp]
    refine ⟨hd, ?_⟩
    simp only [runLoop, hd]
    cases hr : runLoop peerOf handler disconnect rest (disconnect p s) with
    | error e2 => simp [Except.map]
    | ok r =>
      cases r
      simp [Except.map]
  · intro hp
    simp [runLoop, dispatchOne, hraise, hp]

/-- Witness for C1 at a concrete faulting handler. -/
theorem dispatcher_isolates_faulting_peer_witness :
    dispatchOne (fun ev : Option Nat => ev) (fun _ _ => Except.error 7)
      (fun _ s => s + 1) (some 5) (0 : Nat) = .ok (1, [5]) :=
  ((dispatcher_isolates_faulting_peer (fun ev : Option Nat => ev)
      (fun _ _ => Except.error 7) (fun _ s => s + 1) (some 5) [] 0 7 rfl).1 5 rfl).1

/-! ## C2: registry re-key -/

/-- C2: after `change_player_unique_id(old, new)` succeeds, the player that was
keyed at `old` is reachable at `new` with its `unique_id` attribute equal to
`new`, and `old` is absent from the registry; when `new` is already occupied
the call raises `AlreadyLoggedInError` and — the raise being the first
statement of the method — leaves the registry unchanged. -/
theorem change_player_unique_id_spec (players : Registry) (old_id new_id : Nat) :
    (∀ p, lookupKey players old_id = some p → memKey players new_id = false →
      ∃ players2, change_player_unique_id players old_id new_id = .ok players2 ∧
        lookupKey players2 new_id = some { p with unique_id := new_id } ∧
        memKey players2 old_id = false) ∧
    (memKey players new_id = true →
      change_player_unique_id_run players old_id new_id =
        (players, some .alreadyLoggedIn)) := by
  constructor
  · intro p hp hmem
    refine ⟨eraseKey players old_id ++ [(new_id, { p with unique_id := new_id })], ?_, ?_, ?_⟩
    · simp [change_player_unique_id, hmem, hp]
    · have hnone : lookupKey players new_id = none := (memKey_false_iff players new_id).mp hmem
      rw [lookupKey_append _ _ _ (lookupKey_eraseKey_none players old_id new_id hnone)]
      simp [lookupKey]
    · have hne : new_id ≠ old_id := by
        intro hh
        rw [hh] at hmem
        rw [(memKey_false_iff players old_id).mp hmem] at hp
        exact Option.noConfusion hp
      rw [memKey_false_iff,
        lookupKey_append _ _ _ (lookupKey_eraseKey_self players old_id)]
      simp [lookupKey, hne]
  · intro hmem
    simp [change_player_unique_id_run, change_player_unique_id, hmem]

/-- Witness for C2 at a concrete registry. -/
theorem change_player_unique_id_spec_witness :
    ∃ players2,
      change_player_unique_id
        [(10000000, ({ unique_id := 10000000, login_name := "a", password_hash := none,
                       display_name := none, registered := false, team := none,
                       game_server := none } : Player))] 10000000 42 = .ok players2 ∧
      lookupKey players2 42 =
        some { unique_id := 42, login_name := "a", password_hash := none,
               display_name := none, registered := false, team := none,
               game_server := none } ∧
      memKey players2 10000000 = false :=
  (change_player_unique_id_spec _ 10000000 42).1
    { unique_id := 10000000, login_name := "a", password_hash := none,
      display_name := none, registered := false, team := none, game_server := none }
    (by decide) (by decide)

/-! ## C10: re-keying onto an occupied id, including the id's own holder -/

/-- C10: `change_player_unique_id(old, new)` raises `AlreadyLoggedInError`
whenever `new` is occupied — in particular when `old = new` and the only
occupant of `new` is the calling player itself — so a registered login whose
account-bound `unique_id` equals the player's currently allocated id is
rejected with `AlreadyLoggedInError` rather than treated as a no-op re-key. -/
theorem change_player_unique_id_self_collision (players : Registry)
    (minLen maxLen : Nat) (allowed : List Nat) (accounts : List (String × Account))
    (self0 : Player) (login_name : String) (pwh : List Nat) (acct : Account)
    (hval : validate_username minLen maxLen allowed login_name = none)
    (hacct : lookupKey accounts login_name = some acct)
    (hpw : acct.password_hash = pwh)
    (hid : acct.unique_id = self0.unique_id)
    (hmem : memKey players self0.unique_id = true) :
    (∀ old_id new_id, memKey players new_id = true →
      change_player_unique_id players old_id new_id = .error .alreadyLoggedIn) ∧
    change_player_unique_id players self0.unique_id self0.unique_id =
      .error .alreadyLoggedIn ∧
    handle_login_request minLen maxLen allowed accounts players self0 login_name
      (some pwh) = .error .alreadyLoggedIn := by
  refine ⟨fun old_id new_id hm => by simp [change_player_unique_id, hm], ?_, ?_⟩
  · simp [change_player_unique_id, hmem]
  · simp [handle_login_request, hval, hacct, hpw, hid, change_player_unique_id,
      memKey_updateValue, hmem]

/-- Witness for C10: a registered login whose account id is the player's current
id is rejected as already logged in. -/
theorem change_player_unique_id_self_collision_witness :
    handle_login_request 3 15 [97, 108, 105, 99, 101]
      [("alice", ({ password_hash := [1], unique_id := 10000000 } : Account))]
      [(10000000, ({ unique_id := 10000000, login_name := "", password_hash := none,
                     display_name := none, registered := false, team := none,
                     game_server := none } : Player))]
      { unique_id := 10000000, login_name := "", password_hash := none,
        display_name := none, registered := false, team := none, game_server := none }
      "alice" (some [1]) = .error .alreadyLoggedIn :=
  (change_player_unique_id_self_collision _ 3 15 _ _ _ "alice" [1]
    { password_hash := [1], unique_id := 10000000 }
    (by decide) (by decide) (by decide) (by decide) (by decide)).2.2

/-! ## C4 / C7: the display-name collision loop -/

/-- Dichotomy of the retry loop: it either aborts (the `assert index < 100`
failure, modelled as `none`) or returns a name that is free, and that name is
either the candidate the loop was entered with or an `unv%02d-` candidate whose
index lies in the window the loop can still produce. -/
theorem choose_display_name_loop_spec (truncated : String) (names : List String) :
    ∀ remaining index dn,
      choose_display_name_loop truncated names dn index remaining = none ∨
      ∃ dn2, choose_display_name_loop truncated names dn index remaining = some dn2 ∧
        dn2 ∉ names ∧
        (dn2 = dn ∨ ∃ i, index ≤ i ∧ i < index + remaining ∧
          dn2 = "unv" ++ pad2 i ++ "-" ++ truncated) := by
  intro remaining
  induction remaining with
  | zero =>
    intro index dn
    by_cases h : dn ∈ names
    · left
      simp [choose_display_name_loop, h]
    · right
      exact ⟨dn, by simp [choose_display_name_loop, h], h, Or.inl rfl⟩
  | succ r ih =>
    intro index dn
    by_cases h : dn ∈ names
    · have heq : choose_display_name_loop truncated names dn index (r + 1) =
          choose_display_name_loop truncated names
            ("unv" ++ pad2 index ++ "-" ++ truncated) (index + 1) r := by
        simp [choose_display_name_loop, h]
      rcases ih (index + 1) ("unv" ++ pad2 index ++ "-" ++ truncated) with
        hn | ⟨dn2, he, hnm, hsh⟩
      · left
        rw [heq]
        exact hn
      · right
        refine ⟨dn2, heq ▸ he, hnm, ?_⟩
        rcases hsh with rfl | ⟨i, hi1, hi2, hieq⟩
        · exact Or.inr ⟨index, le_refl _, by omega, rfl⟩
        · exact Or.inr ⟨i, by omega, by omega, hieq⟩
    · right
      exact ⟨dn, by simp [choose_display_name_loop, h], h, Or.inl rfl⟩

/-- C7: for `registered = false` the collision-retry loop terminates: it either
returns a free candidate — the `unvrf-` one or an `unv%02d-` one for an index
in `2..98` (producing the index-99 candidate already trips the
`assert index < 100`) — or it aborts with the fatal assertion instead of
looping without bound. -/
theorem choose_display_name_unregistered_terminates (login_name : String)
    (names : List String) (maxLen : Nat) :
    choose_display_name login_name false names maxLen = none ∨
    ∃ dn, choose_display_name login_name false names maxLen = some dn ∧ dn ∉ names ∧
      (dn = "unvrf-" ++ truncBase login_name maxLen ∨
        ∃ i, 2 ≤ i ∧ i ≤ 98 ∧
          dn = "unv" ++ pad2 i ++ "-" ++ truncBase login_name maxLen) := by
  have h := choose_display_name_loop_spec (truncBase login_name maxLen) names 97 2
    ("unvrf-" ++ truncBase login_name maxLen)
  rcases h with hn | ⟨dn2, he, hnm, hsh⟩
  · left
    simpa [choose_display_name] using hn
  · right
    refine ⟨dn2, by simpa [choose_display_name] using he, hnm, ?_⟩
    rcases hsh with rfl | ⟨i, hi1, hi2, hieq⟩
    · exact Or.inl rfl
    · exact Or.inr ⟨i, hi1, by omega, hieq⟩

/-- C4 (amended): for `registered = true` the result is the login name truncated
to `max_name_length`, regardless of `names_in_use`; for `registered = false`
any returned name is absent from `names_in_use`; and for `registered = false`
with empty `names_in_use` the result is deterministic:
`"unvrf-" + login_name[:max_name_length - 6]` (the login name truncated so the
prefixed candidate fits `max_name_length`), not `"unvrf-" + login_name`. -/
theorem choose_display_name_spec :
    (∀ (login_name : String) (names : List String) (maxLen : Nat),
      choose_display_name login_name true names maxLen =
        some (String.mk (login_name.toList.take maxLen))) ∧
    (∀ (login_name : String) (names : List String) (maxLen : Nat) (dn : String),
      choose_display_name login_name false names maxLen = some dn → dn ∉ names) ∧
    (∀ (login_name : String) (maxLen : Nat),
      choose_display_name login_name false [] maxLen =
        some ("unvrf-" ++ truncBase login_name maxLen)) := by
  refine ⟨fun login_name names maxLen => rfl, ?_, ?_⟩
  · intro login_name names maxLen dn hdn
    rcases choose_display_name_unregistered_terminates login_name names maxLen with
      hn | ⟨dn2, he, hnm, _⟩
    · rw [hdn] at hn
      exact Option.noConfusion hn
    · rw [hdn] at he
      obtain rfl : dn = dn2 := Option.some_injective _ he
      exact hnm
  · intro login_name maxLen
    simp [choose_display_name, choose_display_name_loop]

/-- Witness for C4: the second conjunct applied at the spec's own collision
scenario (two unregistered players named Alice). -/
theorem choose_display_name_spec_witness :
    ("unv02-Alice" : String) ∉ ["unvrf-Alice"] :=
  choose_display_name_spec.2.1 "Alice" ["unvrf-Alice"] 15 "unv02-Alice" (by decide)

/-- Counterexample for C4 as stated: with `max_name_length = 15`, empty
`names_in_use` and the 10-character login name `"abcdefghij"`, the result is
`"unvrf-abcdefghi"` — the login name is truncated to fit, so the result is not
`"unvrf-" + login_name`. -/
theorem choose_display_name_truncation_cex :
    choose_display_name "abcdefghij" false [] 15 = some "unvrf-abcdefghi" ∧
    ("unvrf-abcdefghi" : String) ≠ "unvrf-" ++ "abcdefghij" := by
  decide

/-! ## C5: username validation and the rejection branch of the login handler -/

theorem all_ascii_iff (username : String) :
    username.toList.all (fun c => decide (c.toNat < 128)) = true ↔
      ∀ c ∈ username.toList, c.toNat < 128 := by
  simp [List.all_eq_true]

theorem is_valid_ascii_iff (allowed : List Nat) (username : String) :
    is_valid_ascii_for_name allowed (username.toList.map Char.toNat) = true ↔
      ∀ c ∈ username.toList, c.toNat ∈ allowed := by
  simp [is_valid_ascii_for_name, List.all_eq_true]

/-- C5 (amended): `validate_username` accepts exactly the names whose length is
within `[min_name_length, max_name_length]` and whose characters are ASCII
code points on the allow-list (so too-short, too-long, non-ASCII and
disallowed-byte names are all rejected with a failure reason); a login attempt
whose name fails validation is answered with the rejection response and leaves
the registry, the player's id, `registered` flag, `display_name` and state
machine untouched — the only mutation is that the supplied `login_name` and
`password_hash` have been recorded on the player object (lines 59-60 run
before validation). -/
theorem validate_username_spec (minLen maxLen : Nat) (allowed : List Nat)
    (username : String) (accounts : List (String × Account)) (players : Registry)
    (self0 : Player) (pwh : List Nat) :
    (validate_username minLen maxLen allowed username = none ↔
      (minLen ≤ username.length ∧ username.length ≤ maxLen ∧
        ∀ c ∈ username.toList, c.toNat < 128 ∧ c.toNat ∈ allowed)) ∧
    (∀ reason, validate_username minLen maxLen allowed username = some reason →
      handle_login_request minLen maxLen allowed accounts players self0 username
          (some pwh) =
        .ok (updateValue players self0.unique_id
              (fun _ => { self0 with login_name := username, password_hash := some pwh }),
             { self0 with login_name := username, password_hash := some pwh },
             .rejected)) := by
  have hval : validate_username minLen maxLen allowed username = none ↔
      (¬(username.length < minLen) ∧ ¬(maxLen < username.length) ∧
        (∀ x ∈ username.data, x.toNat < 128) ∧
        is_valid_ascii_for_name allowed (List.map Char.toNat username.data) = true) := by
    unfold validate_username
    by_cases h1 : username.length < minLen
    · simp [h1]
    by_cases h2 : maxLen < username.length
    · simp [h1, h2]
    by_cases h3 : ∀ x ∈ username.data, x.toNat < 128
    · have h3n : ¬∃ x ∈ username.data, 128 ≤ x.toNat := by
        push_neg
        intro x hx
        have := h3 x hx
        omega
      by_cases h4 : is_valid_ascii_for_name allowed (List.map Char.toNat username.data) = true
      · simp [h1, h2, h3n, h4]
        exact h3
      · rw [Bool.not_eq_true] at h4
        simp [h1, h2, h3, h3n, h4]
    · have h3e : ∃ x ∈ username.data, 128 ≤ x.toNat := by
        push_neg at h3
        obtain ⟨x, hx, hlt⟩ := h3
        exact ⟨x, hx, by omega⟩
      simp [h1, h2, h3, h3e]
  constructor
  · rw [hval]
    constructor
    · rintro ⟨h1, h2, h3, h4⟩
      refine ⟨by omega, by omega, fun c hc => ?_⟩
      exact ⟨h3 c hc, (is_valid_ascii_iff allowed username).mp h4 c hc⟩
    · rintro ⟨ha, hb, hc⟩
      refine ⟨by omega, by omega, fun c hcm => (hc c hcm).1, ?_⟩
      exact (is_valid_ascii_iff allowed username).mpr (fun c hcm => (hc c hcm).2)
  · intro reason hr
    simp [handle_login_request, hr]

/-- The freshly connected player used in the concrete login scenarios. -/
def cexPlayer : Player :=
  { unique_id := 10000000, login_name := "", password_hash := none,
    display_name := none, registered := false, team := none, game_server := none }

/-- Witness for C5 at a concrete too-short name. -/
theorem validate_username_spec_witness :
    handle_login_request 3 15 [] [] [(10000000, cexPlayer)] cexPlayer "x" (some [1, 2]) =
      .ok (updateValue [(10000000, cexPlayer)] cexPlayer.unique_id
            (fun _ => { cexPlayer with login_name := "x", password_hash := some [1, 2] }),
           { cexPlayer with login_name := "x", password_hash := some [1, 2] },
           .rejected) :=
  (validate_username_spec 3 15 [] "x" [] [(10000000, cexPlayer)] cexPlayer [1, 2]).2
    "User name is too short, min length is 3 characters." (by decide)

/-- Counterexample for C5 as stated: a login attempt whose name fails validation
is answered with the rejection response, but it does cause a state change — the
supplied `login_name` and `password_hash` are assigned to the player (and hence
to its registry slot) before validation runs, so the registry after the
rejected attempt differs from the registry before it. -/
theorem login_validation_mutates_player_cex :
    handle_login_request 3 15 [] [] [(10000000, cexPlayer)] cexPlayer "x" (some [1, 2]) =
      .ok ([(10000000, { cexPlayer with login_name := "x", password_hash := some [1, 2] })],
           { cexPlayer with login_name := "x", password_hash := some [1, 2] },
           .rejected) ∧
    ([(10000000, { cexPlayer with login_name := "x", password_hash := some [1, 2] })] :
        Registry) ≠ [(10000000, cexPlayer)] := by
  exact ⟨rfl, by decide⟩

/-! ## C3: a login colliding with a connected identity -/

/-- C3 (amended): a login attempt whose account-bound `unique_id` collides with
an id already present in the player registry is rejected with
`AlreadyLoggedInError` without reassigning the id — but the exception is not
caught anywhere in the handler chain, so it propagates to the dispatch loop,
which (the login message carrying the attempting player as its peer) logs it
and issues exactly one disconnect call on the attempting player's connection. -/
theorem already_logged_in_propagates (minLen maxLen : Nat) (allowed : List Nat)
    (accounts : List (String × Account)) (players : Registry) (self0 : Player)
    (login_name : String) (pwh : List Nat) (acct : Account)
    (disconnect : Nat → Registry × Player → Registry × Player)
    (hval : validate_username minLen maxLen allowed login_name = none)
    (hacct : lookupKey accounts login_name = some acct)
    (hpw : acct.password_hash = pwh)
    (hocc : memKey players acct.unique_id = true) :
    handle_login_request minLen maxLen allowed accounts players self0 login_name
      (some pwh) = .error .alreadyLoggedIn ∧
    dispatchOne (fun _ : Unit => some self0.unique_id)
      (fun _ => login_event_handler minLen maxLen allowed accounts login_name pwh)
      disconnect () (players, self0) =
      .ok (disconnect self0.unique_id (players, self0), [self0.unique_id]) := by
  have h1 : handle_login_request minLen maxLen allowed accounts players self0 login_name
      (some pwh) = .error .alreadyLoggedIn := by
    simp [handle_login_request, hval, hacct, hpw, change_player_unique_id,
      memKey_updateValue, hocc]
  exact ⟨h1, by simp [dispatchOne, login_event_handler, h1, Except.map]⟩

/-- The player already connected under the account-bound id 42 in the concrete
collision scenario. -/
def otherAlice : Player :=
  { unique_id := 42, login_name := "alice", password_hash := some [1],
    display_name := some "alice", registered := true, team := none,
    game_server := none }

/-- Witness for C3's amended theorem at the concrete collision scenario. -/
theorem already_logged_in_propagates_witness :
    handle_login_request 3 15 [97, 108, 105, 99, 101]
      [("alice", { password_hash := [1], unique_id := 42 })]
      [(42, otherAlice), (10000000, cexPlayer)] cexPlayer "alice" (some [1]) =
      .error .alreadyLoggedIn :=
  (already_logged_in_propagates 3 15 [97, 108, 105, 99, 101]
    [("alice", { password_hash := [1], unique_id := 42 })]
    [(42, otherAlice), (10000000, cexPlayer)] cexPlayer "alice" [1]
    { password_hash := [1], unique_id := 42 } (fun _ st => st)
    (by decide) (by decide) (by decide) (by decide)).1

/-- Counterexample for C3 as stated: dispatching the colliding login attempt
does disconnect the attempting player's connection — the disconnect-call list
of the dispatch step is `[10000000]`, the attempting player's id, not `[]`. -/
theorem already_logged_in_disconnect_cex :
    dispatchOne (fun _ : Unit => some (10000000 : Nat))
      (fun _ => login_event_handler 3 15 [97, 108, 105, 99, 101]
        [("alice", { password_hash := [1], unique_id := 42 })] "alice" [1])
      (fun _ st => st) () ([(42, otherAlice), (10000000, cexPlayer)], cexPlayer) =
      .ok (([(42, otherAlice), (10000000, cexPlayer)], cexPlayer), [10000000]) ∧
    ([10000000] : List Nat) ≠ [] := by
  exact ⟨rfl, by decide⟩

/-! ## C6: game-server id allocation -/

theorem firstUnusedFrom_ge (numbers : List Nat) :
    ∀ fuel n, n ≤ firstUnusedFrom numbers fuel n := by
  intro fuel
  induction fuel with
  | zero =>
    intro n
    simp [firstUnusedFrom]
  | succ f ih =>
    intro n
    simp only [firstUnusedFrom]
    by_cases h : n ∈ numbers
    · rw [if_pos h]
      exact le_trans (Nat.le_succ n) (ih (n + 1))
    · simp [h]

theorem firstUnusedFrom_min (numbers : List Nat) :
    ∀ fuel n k, n ≤ k → k < firstUnusedFrom numbers fuel n → k ∈ numbers := by
  intro fuel
  induction fuel with
  | zero =>
    intro n k h1 h2
    simp [firstUnusedFrom] at h2
    omega
  | succ f ih =>
    intro n k h1 h2
    simp only [firstUnusedFrom] at h2
    by_cases h : n ∈ numbers
    · rw [if_pos h] at h2
      by_cases hk : k = n
      · exact hk ▸ h
      · exact ih (n + 1) k (by omega) h2
    · rw [if_neg h] at h2
      omega

theorem firstUnusedFrom_free_or_all (numbers : List Nat) :
    ∀ fuel n, firstUnusedFrom numbers fuel n ∉ numbers ∨
      (∀ k, k < fuel → n + k ∈ numbers) := by
  intro fuel
  induction fuel with
  | zero =>
    intro n
    right
    intro k hk
    exact absurd hk (by omega)
  | succ f ih =>
    intro n
    by_cases h : n ∈ numbers
    · rcases ih (n + 1) with hfree | hall
      · left
        simpa [firstUnusedFrom, h] using hfree
      · right
        intro k hk
        cases k with
        | zero => simpa using h
        | succ k2 =>
          have h2 := hall k2 (by omega)
          have heq : n + 1 + k2 = n + (k2 + 1) := by omega
          rw [heq] at h2
          exact h2
    · left
      simp [firstUnusedFrom, h]

/-- The allocator meets its spec: the result is unused, at least the floor, and
smallest such (every smaller value at or above the floor is in use). -/
theorem first_unused_number_above_spec (numbers : List Nat) (floor_val : Nat) :
    first_unused_number_above numbers floor_val ∉ numbers ∧
    floor_val ≤ first_unused_number_above numbers floor_val ∧
    ∀ k, floor_val ≤ k → k < first_unused_number_above numbers floor_val →
      k ∈ numbers := by
  refine ⟨?_, firstUnusedFrom_ge numbers _ floor_val,
    fun k h1 h2 => firstUnusedFrom_min numbers _ floor_val k h1 h2⟩
  rcases firstUnusedFrom_free_or_all numbers (numbers.length + 1) floor_val with
    hfree | hall
  · exact hfree
  · exfalso
    have hsub : (Finset.range (numbers.length + 1)).image (fun k => floor_val + k) ⊆
        numbers.toFinset := by
      intro x hx
      simp only [Finset.mem_image, Finset.mem_range] at hx
      obtain ⟨k, hk, rfl⟩ := hx
      exact List.mem_toFinset.mpr (hall k hk)
    have hcard := Finset.card_le_card hsub
    rw [Finset.card_image_of_injective _
        (fun a b hab => Nat.add_left_cancel hab : Function.Injective
          (fun k => floor_val + k)),
      Finset.card_range] at hcard
    have hlen := numbers.toFinset_card_le
    omega

/-- C6: on every game-server connect the allocated `server_id` is the smallest
unused integer ≥ 1 over the registered game-server keys, `match_id` is
`server_id + 10000000`, and the server is inserted under `server_id`; a freed
id is reusable — connecting A then B yields ids 1 (match id 10000001) and 2,
and connecting C after disconnecting A yields 1 again. -/
theorem game_server_allocation_spec :
    (∀ gss : GSRegistry,
      (handle_game_server_connected gss).2.server_id ∉ gss.map Prod.fst ∧
      1 ≤ (handle_game_server_connected gss).2.server_id ∧
      (∀ k, 1 ≤ k → k < (handle_game_server_connected gss).2.server_id →
        k ∈ gss.map Prod.fst) ∧
      (handle_game_server_connected gss).2.match_id =
        (handle_game_server_connected gss).2.server_id + 10000000 ∧
      (handle_game_server_connected gss).1 =
        gss ++ [((handle_game_server_connected gss).2.server_id,
                 (handle_game_server_connected gss).2)]) ∧
    ((handle_game_server_connected []).2.server_id = 1 ∧
     (handle_game_server_connected []).2.match_id = 10000001 ∧
     (handle_game_server_connected (handle_game_server_connected []).1).2.server_id = 2 ∧
     (handle_game_server_connected
        (handle_game_server_disconnected
          (handle_game_server_connected (handle_game_server_connected []).1).1
          (handle_game_server_connected []).2)).2.server_id = 1) := by
  constructor
  · intro gss
    obtain ⟨hf, hge, hmin⟩ := first_unused_number_above_spec (gss.map Prod.fst) 1
    exact ⟨hf, hge, hmin, rfl, rfl⟩
  · decide

/-- Witness for C6's minimality clause at a concrete registry: with server 1
connected, the next allocation is 2 and id 1 is indeed in use. -/
theorem game_server_allocation_spec_witness :
    (1 : Nat) ∈ ([(1, ({ server_id := 1, match_id := 10000001 } : GameServer))].map
      Prod.fst) :=
  (game_server_allocation_spec.1
    [(1, { server_id := 1, match_id := 10000001 })]).2.2.1 1 (by decide) (by decide)

/-! ## C8: team-info cross-referencing -/

theorem team_info_step_other (srv : Nat) (players : Registry) (pt : Nat × Nat) (k : Nat)
    (h : k ≠ pt.1) :
    lookupKey (team_info_step srv players pt) k = lookupKey players k := by
  unfold team_info_step
  cases lookupKey players pt.1 with
  | none => rfl
  | some p =>
    by_cases hg : p.game_server = some srv
    · have hne : pt.1 ≠ k := fun hh => h hh.symm
      simp [hg, lookupKey_updateValue, hne]
    · simp [hg]

theorem team_info_step_self (srv : Nat) (players : Registry) (pt : Nat × Nat) :
    lookupKey (team_info_step srv players pt) pt.1 =
      (lookupKey players pt.1).map
        (fun p => if p.game_server = some srv then { p with team := some pt.2 } else p) := by
  unfold team_info_step
  cases hp : lookupKey players pt.1 with
  | none => simp [hp]
  | some p =>
    by_cases hg : p.game_server = some srv
    · simp [hg, lookupKey_updateValue, hp]
    · simp [hg, hp]

/-- C8: for a team-info message with distinct player ids, each `(pid, tid)`
pair updates that player's `team` field exactly when the player is currently
in the registry and attached to the emitting game server (a missing player or
one attached elsewhere is left untouched — expressed by the `Option.map` of the
conditional update), and a player id not mentioned by the message keeps its
binding unchanged; the handler is a total function — it raises nothing and
issues no disconnect. -/
theorem team_info_spec (players : Registry) (srv : Nat) (pairs : List (Nat × Nat))
    (hnd : (pairs.map Prod.fst).Nodup) :
    (∀ pid tid, (pid, tid) ∈ pairs →
      lookupKey (handle_team_info players srv pairs) pid =
        (lookupKey players pid).map
          (fun p => if p.game_server = some srv then { p with team := some tid } else p)) ∧
    (∀ pid, pid ∉ pairs.map Prod.fst →
      lookupKey (handle_team_info players srv pairs) pid = lookupKey players pid) := by
  revert hnd
  induction pairs generalizing players with
  | nil =>
    intro hnd
    exact ⟨fun pid tid h => absurd h (List.not_mem_nil _), fun pid _ => rfl⟩
  | cons q rest ih =>
    intro hnd
    obtain ⟨hq, hnd2⟩ := List.nodup_cons.mp hnd
    obtain ⟨ih1, ih2⟩ := ih (team_info_step srv players q) hnd2
    have hstep : handle_team_info players srv (q :: rest) =
        handle_team_info (team_info_step srv players q) srv rest := rfl
    constructor
    · intro pid tid hmem
      rcases List.mem_cons.mp hmem with heq | hmem2
      · cases heq.symm
        rw [hstep, ih2 pid hq, team_info_step_self]
      · have hpid_ne : pid ≠ q.1 := by
          intro hh
          exact absurd (List.mem_map.mpr ⟨(pid, tid), hmem2, hh ▸ rfl⟩) (hh ▸ hq)
        rw [hstep, ih1 pid tid hmem2, team_info_step_other srv players q pid hpid_ne]
    · intro pid hnm
      simp only [List.map_cons, List.mem_cons, not_or] at hnm
      obtain ⟨hne, hrest⟩ := hnm
      rw [hstep, ih2 pid hrest, team_info_step_other srv players q pid hne]

/-- The player used in the concrete team-info scenario: connected and attached
to game server 5. -/
def teamPlayer : Player :=
  { unique_id := 1, login_name := "p", password_hash := none,
    display_name := some "p", registered := false, team := none,
    game_server := some 5 }

/-- Witness for C8 at a concrete registry and message. -/
theorem team_info_spec_witness :
    lookupKey (handle_team_info [(1, teamPlayer)] 5 [(1, 3)]) 1 =
      (lookupKey [(1, teamPlayer)] 1).map
        (fun p => if p.game_server = some 5 then { p with team := some 3 } else p) :=
  (team_info_spec [(1, teamPlayer)] 5 [(1, 3)] (by decide)).1 1 3 (by decide)

/-! ## C9: auth-code issuance -/

theorem randomChoice_mem (seq : List Char) (r : Nat) (h : seq ≠ []) :
    randomChoice seq r ∈ seq := by
  unfold randomChoice
  have hlen : 0 < seq.length := List.length_pos.mpr h
  have hlt : r % seq.length < seq.length := Nat.mod_lt _ hlen
  rw [List.getD_eq_getElem seq _ hlt]
  exact List.getElem_mem hlt

/-- C9: an auth-code request whose login name fails validation is answered with
`"Error: " + reason` and no account-store call is made; a valid request is
answered with an 8-character code drawn entirely from `availablechars` — ASCII
letters and digits excluding `O`, `0`, `I` and `l` — and the
`(login_name, code)` pair is persisted via `add_account` followed by `save`. -/
theorem authcode_request_spec (minLen maxLen : Nat) (allowed : List Nat)
    (rand : Nat → Nat) (login_name : String) :
    (∀ reason, validate_username minLen maxLen allowed login_name = some reason →
      handle_authcode_request minLen maxLen allowed rand login_name =
        { reply := "Error: " ++ reason, ops := [] }) ∧
    (validate_username minLen maxLen allowed login_name = none →
      (handle_authcode_request minLen maxLen allowed rand login_name).reply.length = 8 ∧
      (∀ c ∈ (handle_authcode_request minLen maxLen allowed rand login_name).reply.toList,
        c ∈ availablechars) ∧
      (handle_authcode_request minLen maxLen allowed rand login_name).ops =
        [.add login_name
          (handle_authcode_request minLen maxLen allowed rand login_name).reply,
         .save]) ∧
    (∀ c ∈ availablechars,
      c ∈ (ascii_letters ++ ascii_digits).toList ∧ c ∉ ['O', '0', 'I', 'l']) := by
  refine ⟨?_, ?_, by decide⟩
  · intro reason hr
    simp [handle_authcode_request, hr]
  · intro hv
    have hreq : handle_authcode_request minLen maxLen allowed rand login_name =
        { reply := String.mk ((List.range 8).map
            (fun i => randomChoice availablechars (rand i))),
          ops := [.add login_name (String.mk ((List.range 8).map
            (fun i => randomChoice availablechars (rand i)))), .save] } := by
      simp [handle_authcode_request, hv]
    rw [hreq]
    refine ⟨by simp, ?_, rfl⟩
    intro c hc
    have hc2 : c ∈ (List.range 8).map (fun i => randomChoice availablechars (rand i)) := hc
    obtain ⟨i, hi, rfl⟩ := List.mem_map.mp hc2
    exact randomChoice_mem availablechars (rand i) (by decide)

/-- Witness for C9 at the spec's own scenario: a two-character name with
`min_name_length = 3` yields the validation-failure reply and no code. -/
theorem authcode_request_spec_witness :
    handle_authcode_request 3 15 [] (fun _ => 0) "ab" =
      { reply := "Error: User name is too short, min length is 3 characters.",
        ops := [] } :=
  (authcode_request_spec 3 15 [] (fun _ => 0) "ab").1
    "User name is too short, min length is 3 characters." (by decide)

end Taserver
